import Mathlib

/-!
Shallow embedding of the chess rules engine in src/main.py.

Conventions used throughout this development:
* Python exceptions are modelled by the result type `PyResult`; the error
  kind records which exception class the interpreter would raise
  (AttributeError, TypeError, ValueError with its message, IndexError).
  Unbounded Python loops and recursion are modelled with an explicit fuel
  parameter; exhausting the fuel yields the marker `Err.fuelOut`, which
  stands for a computation that does not terminate (or, for bounded but
  deep recursion such as Position.clone, a RecursionError).
* Mutating methods are modelled with explicit state passing: a function
  that in Python mutates the board returns `Option Err × Board`, where the
  returned board is the state as mutated up to the point where the
  exception (if any) was raised.  This keeps partial mutation observable.
* A Python Move object stores references to live Position objects of the
  board matrix; since the matrix cells are only ever mutated in place and
  never replaced, a reference to a cell is equivalent to the pair of its
  coordinates.  The embedding therefore stores coordinates in `Move` and
  in the king-location index, and reads the current cell content through
  the board, which preserves the aliasing behaviour of the source.
* Python list indexing on the 8-element board rows is total for indices
  in [-8, 7] (negative indices wrap) and raises IndexError otherwise;
  `pyIdx8` implements exactly this.
-/

/-- Python exception classes raised by the engine, plus the fuel marker. -/
inductive Err where
  | attrError
  | typeError
  | indexError
  | valueError (msg : String)
  | nameError
  | fuelOut
deriving DecidableEq

/-- Result of a Python computation: a value or a raised exception. -/
inductive PyResult (α : Type) where
  | ok (a : α)
  | error (e : Err)
deriving DecidableEq

instance : Monad PyResult where
  pure a := .ok a
  bind r f := match r with
    | .ok a => f a
    | .error e => .error e

/-- enum PieceTypes (src/main.py lines 7-13). -/
inductive PieceTypes where
  | pawn
  | rook
  | knight
  | bishop
  | king
  | queen
deriving DecidableEq

/-- enum Color (src/main.py lines 16-18). -/
inductive Color where
  | white
  | black
deriving DecidableEq

/-- revert_color (src/main.py lines 21-25). -/
def revert_color : Color → Color
  | .white => .black
  | .black => .white

/-- Player (src/main.py lines 28-31). -/
structure Player where
  name : String
  color : Color
deriving DecidableEq

/-- A piece instance.  The Python classes Pawn/Rook/King carry a mutable
has_moved flag and King additionally has_been_checked; Knight, Bishop and
Queen never read either flag, so giving the fields to every piece (false
for kinds that do not set them) is observationally faithful. -/
structure Piece where
  pieceType : PieceTypes
  color : Color
  hasMoved : Bool
  hasBeenChecked : Bool
deriving DecidableEq

/-- Position (src/main.py lines 466-493): one cell of the matrix.  The
constructor validates row and column in [0, 7], hence `Fin 8`. -/
structure Position where
  row : Fin 8
  column : Fin 8
  color : Color
  piece : Option Piece
deriving DecidableEq

/-- Move (src/main.py lines 633-652).  The Python object stores Position
references into the board matrix; we store the coordinates of those cells
(see the header comment).  start1/end1 are the rook displacement of a
castle move; the constructor enforces their presence iff is_castle, but
Chess.move accepts externally built moves so the embedding keeps them
optional and models the attribute errors that malformed values cause. -/
structure Move where
  startR : Fin 8
  startC : Fin 8
  endR : Fin 8
  endC : Fin 8
  isCastle : Bool
  start1 : Option (Fin 8 × Fin 8)
  end1 : Option (Fin 8 × Fin 8)
deriving DecidableEq

/-- Move(position, cntpos) with default arguments: a simple move. -/
def mkMoveSimple (s e : Position) : Move :=
  ⟨s.row, s.column, e.row, e.column, false, none, none⟩

/-- Move(position, endpos, True, start1pos, end1pos): a castle move. -/
def mkMoveCastle (s e s1 e1 : Position) : Move :=
  ⟨s.row, s.column, e.row, e.column, true, some (s1.row, s1.column),
    some (e1.row, e1.column)⟩

/-- Board (src/main.py lines 496-561): the 8 by 8 matrix, the
king-location index and the last-move slot.  king_positions stores the
coordinates of the cell object held by the Python dict; _last_move is
initialised to None and, notably, never assigned anywhere else in the
source. -/
structure Board where
  positions : Fin 8 → Fin 8 → Position
  kingPositions : Color → Fin 8 × Fin 8
  lastMove : Option Move
  white : Player
  black : Player

/-- Reading board.positions[r][c] with in-range indices. -/
def cellAt (b : Board) (r c : Fin 8) : Position := b.positions r c

/-- Python list indexing on a row/column index of an 8-element list:
indices in [0,7] are direct, indices in [-8,-1] wrap, anything else
raises IndexError. -/
def pyIdx8 (i : Int) : PyResult (Fin 8) :=
  if h : 0 ≤ i ∧ i < 8 then
    .ok ⟨i.toNat, by omega⟩
  else if h2 : -8 ≤ i ∧ i < 0 then
    .ok ⟨(i + 8).toNat, by omega⟩
  else .error .indexError

/-- board.positions[r][c] with arbitrary integer indices (Python list
semantics). -/
def boardGet (b : Board) (r c : Int) : PyResult Position :=
  match pyIdx8 r with
  | .error e => .error e
  | .ok r8 =>
    match pyIdx8 c with
    | .error e => .error e
    | .ok c8 => .ok (b.positions r8 c8)

/-- Overwrite the piece slot of the cell at (r, c), keeping the cell's
coordinates and square colour (the Python code mutates cell.piece in
place). -/
def setCellPiece (b : Board) (r c : Fin 8) (pc : Option Piece) : Board :=
  { b with positions := fun r2 c2 =>
      if r2 = r ∧ c2 = c then { b.positions r c with piece := pc }
      else b.positions r2 c2 }

/-- Repoint the king-location index. -/
def setKingIndex (b : Board) (col : Color) (rc : Fin 8 × Fin 8) : Board :=
  { b with kingPositions := fun c2 =>
      if c2 = col then rc else b.kingPositions c2 }

/-- Position.update (src/main.py lines 486-489):

    self.piece = piece
    if self.piece.piece_type == PieceTypes.king:
        board.king_positions[self.piece.color] = self

The assignment happens first; when piece is None the attribute read
None.piece_type then raises AttributeError, with the cell already
cleared.  The en_passant_capture parameter is accepted and ignored,
exactly as in the source.  The index stores `self`, i.e. the updated
cell, which our coordinate model renders as (r, c). -/
def position_update (b : Board) (r c : Fin 8) (piece : Option Piece)
    (enPassantCapture : Bool) : Option Err × Board :=
  let b1 := setCellPiece b r c piece
  match piece with
  | none => (some .attrError, b1)
  | some p =>
    if p.pieceType = .king then (none, setKingIndex b1 p.color (r, c))
    else (none, b1)

/-- Position.clone (src/main.py lines 491-493):

    def clone(self):
        return self.clone()

The method calls itself unconditionally, so it never returns (Python
raises RecursionError); the fuel parameter makes this a total function
whose result is fuelOut for every fuel. -/
def positionClone : Nat → Position → PyResult Position
  | 0, _ => .error .fuelOut
  | Nat.succ fuel, p => positionClone fuel p

/-- Cloning step for the optional start1/end1 slots of
Move.clone_positions: `self.start1.clone() if self.start1 is not None
else None`. -/
def cloneOpt (fuel : Nat) (b : Board) :
    Option (Fin 8 × Fin 8) → PyResult Unit
  | some rc =>
    match positionClone fuel (cellAt b rc.1 rc.2) with
    | .error e => .error e
    | .ok _ => .ok ()
  | none => .ok ()

/-- Move.clone_positions (src/main.py lines 665-670): replaces the stored
start/end (and start1/end1 when present) by Position.clone copies.  Our
Move stores coordinates, so only the clone calls themselves are modelled;
since Position.clone never returns, neither does this. -/
def moveClonePositions (fuel : Nat) (b : Board) (m : Move) :
    PyResult Move :=
  match positionClone fuel (cellAt b m.startR m.startC) with
  | .error e => .error e
  | .ok _ =>
    match positionClone fuel (cellAt b m.endR m.endC) with
    | .error e => .error e
    | .ok _ =>
      match cloneOpt fuel b m.start1 with
      | .error e => .error e
      | .ok _ =>
        match cloneOpt fuel b m.end1 with
        | .error e => .error e
        | .ok _ => .ok m

/-- The piece layout of rows 0 and 7, matching the explicit Position
lists in Board.__init__ (src/main.py lines 501-536): rook, knight,
bishop, queen, king, bishop, knight, rook. -/
def backRank : Fin 8 → PieceTypes
  | 0 => .rook
  | 1 => .knight
  | 2 => .bishop
  | 3 => .queen
  | 4 => .king
  | 5 => .bishop
  | 6 => .knight
  | 7 => .rook

/-- One freshly created piece, as PieceFactory.create_piece returns it:
has_moved and has_been_checked start out False. -/
def freshPiece (t : PieceTypes) (c : Color) : Piece := ⟨t, c, false, false⟩

/-- The cell contents produced by Board.__init__: white back rank on row
0, white pawns on row 1, black pawns on row 6, black back rank on row 7.
The square colours follow the source's literal lists for rows 0 and 7 and
the cnt_color alternation for rows 1-6; both make a square white exactly
when row + column is odd. -/
def initialPosition (r c : Fin 8) : Position :=
  { row := r, column := c,
    color := if (r.val + c.val) % 2 = 1 then .white else .black,
    piece :=
      if r.val = 0 then some (freshPiece (backRank c) .white)
      else if r.val = 1 then some (freshPiece .pawn .white)
      else if r.val = 6 then some (freshPiece .pawn .black)
      else if r.val = 7 then some (freshPiece (backRank c) .black)
      else none }

/-- Board.__init__ (src/main.py lines 497-561) for the two given
players: initial layout, king index at (0,4) and (7,4), empty last-move
slot. -/
def mkBoard (w bplayer : Player) : Board :=
  { positions := initialPosition,
    kingPositions := fun c => match c with
      | .white => ((0 : Fin 8), (4 : Fin 8))
      | .black => ((7 : Fin 8), (4 : Fin 8)),
    lastMove := none,
    white := w,
    black := bplayer }

/-- Continuation of Move.is_possibly_valid after the first guard (see
is_possibly_valid below): the source line

    if self.is_castle and self.start1.piece is None or self.end1.piece is not None or \
        {start.piece.piece_type, start1.piece.piece_type} != {rook, king} \
            or start.piece.color != start1.piece.color: return False

evaluated with Python's left-to-right short-circuiting.  For a simple
move (end1 = None) the clause self.end1.piece raises AttributeError. -/
def ipvSecond (b : Board) (m : Move) (sp : Piece) : PyResult Bool :=
  let condA : PyResult Bool :=
    if m.isCastle then
      match m.start1 with
      | none => .error .attrError
      | some s1 => .ok ((cellAt b s1.1 s1.2).piece = none)
    else .ok false
  match condA with
  | .error e => .error e
  | .ok true => .ok false
  | .ok false =>
    match m.end1 with
    | none => .error .attrError
    | some e1 =>
      if (cellAt b e1.1 e1.2).piece.isSome then .ok false
      else
        match m.start1 with
        | none => .error .attrError
        | some s1 =>
          match (cellAt b s1.1 s1.2).piece with
          | none => .error .attrError
          | some s1p =>
            if ¬((sp.pieceType = .rook ∧ s1p.pieceType = .king) ∨
                 (sp.pieceType = .king ∧ s1p.pieceType = .rook)) then .ok false
            else if sp.color ≠ s1p.color then .ok false
            else .ok true

/-- Move.is_possibly_valid (src/main.py lines 654-663). -/
def is_possibly_valid (b : Board) (m : Move) : PyResult Bool :=
  match (cellAt b m.startR m.startC).piece with
  | none => .ok false
  | some sp =>
    match (cellAt b m.endR m.endC).piece with
    | some ep =>
      if ep.color = sp.color then .ok false
      else ipvSecond b m sp
    | none => ipvSecond b m sp

/-- Pawn._is_en_passant(board) (src/main.py lines 70-76).  Reads the
last committed move; the board's _last_move slot is initialised to None
and never written by the source, but the embedding keeps the field
faithful to the read side.  last_move.start.piece is read through the
board cell the stored Position references; when that cell is empty the
attribute read piece_type raises AttributeError. -/
def is_en_passant (b : Board) : PyResult Bool :=
  match b.lastMove with
  | none => .ok false
  | some lm =>
    match (cellAt b lm.startR lm.startC).piece with
    | none => .error .attrError
    | some q =>
      if q.pieceType ≠ .pawn then .ok false
      else if ((lm.endR.val : Int) - (lm.startR.val : Int)).natAbs = 2 then .ok true
      else .ok false

/-- The while-True loop of Board.get_all_possible_moves_in_given_dir
(src/main.py lines 605-613).  Faithful to the source, the loop never
increments cntrow/cntcol (the increments sit before the loop), so when
the probed square is on the board and empty the same move is appended
forever; the fuel parameter makes that observable as fuelOut. -/
def gapmigdLoop (b : Board) (startPos : Position) (cntrow cntcol : Int) :
    Nat → List Move → PyResult (List Move)
  | 0, _ => .error .fuelOut
  | Nat.succ fuel, acc =>
    if 0 ≤ cntrow ∧ cntrow ≤ 7 ∧ 0 ≤ cntcol ∧ cntcol ≤ 7 then
      match boardGet b cntrow cntcol with
      | .error e => .error e
      | .ok cntpos =>
        let acc2 := acc ++ [mkMoveSimple startPos cntpos]
        if cntpos.piece.isSome then .ok acc2
        else gapmigdLoop b startPos cntrow cntcol fuel acc2
    else .ok acc

/-- Board.get_all_possible_moves_in_given_dir (src/main.py lines
597-613). -/
def get_all_possible_moves_in_given_dir (fuel : Nat) (b : Board)
    (position : Position) (i j : Int) : PyResult (List Move) :=
  if i < -1 ∨ i > 1 ∨ j < -1 ∨ j > 1 then
    .error (.valueError ("Invalid Value of i and j."))
  else
    gapmigdLoop b position ((position.row.val : Int) + i)
      ((position.column.val : Int) + j) fuel []

/-- The three cells collected by Rook.can_castle starting at the king's
column and stepping by i along the rook's row (src/main.py lines
331-336); board.positions[position.row][col] uses Python list indexing
on the running integer column. -/
def collect3 (b : Board) (row col0 i : Int) : PyResult (List Position) :=
  match boardGet b row col0 with
  | .error e => .error e
  | .ok p0 =>
    match boardGet b row (col0 + i) with
    | .error e => .error e
    | .ok p1 =>
      match boardGet b row (col0 + 2 * i) with
      | .error e => .error e
      | .ok p2 => .ok [p0, p1, p2]

/-- Dynamic dispatch of piece.can_castle(board, position): King.can_castle
(src/main.py lines 387-388) consults only the two flags; Rook.can_castle
(lines 325-343) is embedded inline; every other piece class has no
can_castle method, so the attribute lookup raises AttributeError.  The
fuel bounds the mutual recursion that arises when the king-location index
points at a rook.  Inside Rook.can_castle, the final call
board.are_positions_under_attack(positions_should_not_be_under_attack)
omits the mandatory color argument, so reaching it raises TypeError. -/
def canCastleDispatch : Nat → Piece → Board → Fin 8 → Fin 8 → PyResult Bool
  | 0, _, _, _, _ => .error .fuelOut
  | Nat.succ fuel, p, b, posR, posC =>
    match p.pieceType with
    | .king => .ok (!p.hasMoved && !p.hasBeenChecked)
    | .rook =>
      if p.hasMoved then .ok false
      else
        let krc := b.kingPositions p.color
        let kingPosition := cellAt b krc.1 krc.2
        match kingPosition.piece with
        | none => .error .attrError
        | some kingPiece =>
          match canCastleDispatch fuel kingPiece b kingPosition.row
              kingPosition.column with
          | .error e => .error e
          | .ok kv =>
            if !kv then .ok false
            else
              let i : Int := if (posC.val : Int) > (kingPosition.column.val : Int)
                then 1 else -1
              match collect3 b (posR.val : Int) (kingPosition.column.val : Int) i with
              | .error e => .error e
              | .ok lst =>
                if lst.any (fun pos => pos.piece.isSome) then .ok false
                else .error .typeError
    | _ => .error .attrError

/-- What a Python get_all_possible_moves call evaluates to: Knight, Rook,
King and Pawn return the accumulated list, but Bishop and Queen end with
`return move`, handing back the single last-constructed Move object
(src/main.py lines 253 and 292). -/
inductive GenResult where
  | list (ms : List Move)
  | single (m : Move)
deriving DecidableEq

/-- The inner `for move in ...: if move.is_possibly_valid():
moves.append(move)` loop shared by the sliding-piece generators.  Besides
the accumulated list it tracks the last value assigned to the loop
variable `move`, which Bishop/Queen return and King's castle block reads
after the loop. -/
def genInner (b : Board) :
    List Move → List Move → Option Move → PyResult (List Move × Option Move)
  | [], acc, last => .ok (acc, last)
  | mv :: rest, acc, last =>
    match is_possibly_valid b mv with
    | .error e => .error e
    | .ok v => genInner b rest (if v then acc ++ [mv] else acc) (some mv)

/-- The nested direction loops of the Bishop/Queen/Rook generators:
for each direction run get_all_possible_moves_in_given_dir and filter
with is_possibly_valid, threading the accumulator and the last-assigned
loop variable. -/
def slideGen (fuel : Nat) (b : Board) (pos : Position) :
    List (Int × Int) → List Move → Option Move → PyResult (List Move × Option Move)
  | [], acc, last => .ok (acc, last)
  | d :: rest, acc, last =>
    match get_all_possible_moves_in_given_dir fuel b pos d.1 d.2 with
    | .error e => .error e
    | .ok ms =>
      match genInner b ms acc last with
      | .error e => .error e
      | .ok (acc2, last2) => slideGen fuel b pos rest acc2 last2

/-- Bishop.get_all_possible_moves (src/main.py lines 246-253): loops i in
[1,-1], j in [1,-1], accumulates into `moves` but then returns the loop
variable `move` (a single Move; NameError if it was never assigned). -/
def bishopGen (fuel : Nat) (b : Board) (pos : Position) : PyResult GenResult :=
  match slideGen fuel b pos [(1, 1), (1, -1), (-1, 1), (-1, -1)] [] none with
  | .error e => .error e
  | .ok (_, none) => .error .nameError
  | .ok (_, some mv) => .ok (.single mv)

/-- Queen.get_all_possible_moves (src/main.py lines 283-292): loops i in
[1,-1,0], j in [1,-1,0] skipping (0,0); same `return move` defect as
Bishop. -/
def queenGen (fuel : Nat) (b : Board) (pos : Position) : PyResult GenResult :=
  match slideGen fuel b pos
      [(1, 1), (1, -1), (1, 0), (-1, 1), (-1, -1), (-1, 0), (0, 1), (0, -1)]
      [] none with
  | .error e => .error e
  | .ok (_, none) => .error .nameError
  | .ok (_, some mv) => .ok (.single mv)

/-- Rook.get_all_possible_moves (src/main.py lines 345-362): the four
straight directions, then a castle candidate when self.can_castle holds
(which, as proved below, it never does). -/
def rookGen (fuel : Nat) (p : Piece) (b : Board) (pos : Position) :
    PyResult (List Move) :=
  match slideGen fuel b pos [(1, 0), (0, 1), (-1, 0), (0, -1)] [] none with
  | .error e => .error e
  | .ok (acc, _) =>
    match canCastleDispatch fuel p b pos.row pos.column with
    | .error e => .error e
    | .ok cc =>
      if cc then
        let krc := b.kingPositions p.color
        let kp := cellAt b krc.1 krc.2
        let i : Int := if (pos.column.val : Int) > (kp.column.val : Int)
          then 1 else -1
        match boardGet b (kp.row.val : Int) ((kp.column.val : Int) + i) with
        | .error e => .error e
        | .ok epos =>
          match boardGet b (kp.row.val : Int) ((kp.column.val : Int) + 2 * i) with
          | .error e => .error e
          | .ok e1pos => .ok (acc ++ [mkMoveCastle pos epos kp e1pos])
      else .ok acc

/-- One try-block of Knight.get_all_possible_moves (src/main.py lines
215-232): index the target cell (IndexError is caught and signalled to
the caller as `none`, i.e. `continue`), build the move, filter with
is_possibly_valid (whose exceptions are not caught). -/
def knightTry (b : Board) (pos : Position) (dr dc : Int) (acc : List Move) :
    PyResult (Option (List Move)) :=
  match boardGet b ((pos.row.val : Int) + dr) ((pos.column.val : Int) + dc) with
  | .error .indexError => .ok none
  | .error e => .error e
  | .ok cnt =>
    let mv := mkMoveSimple pos cnt
    match is_possibly_valid b mv with
    | .error e => .error e
    | .ok v => .ok (some (if v then acc ++ [mv] else acc))

/-- One (i, j) iteration of the Knight generator: the `continue` in the
first except-clause skips the second try-block of the same iteration. -/
def knightPair (b : Board) (pos : Position) (i j : Int) (acc : List Move) :
    PyResult (List Move) :=
  match knightTry b pos i j acc with
  | .error e => .error e
  | .ok none => .ok acc
  | .ok (some acc1) =>
    match knightTry b pos j i acc1 with
    | .error e => .error e
    | .ok none => .ok acc1
    | .ok (some acc2) => .ok acc2

/-- Knight.get_all_possible_moves (src/main.py lines 210-233): i in
[2,-2], j in [1,-1]. -/
def knightGen (b : Board) (pos : Position) : PyResult (List Move) :=
  match knightPair b pos 2 1 [] with
  | .error e => .error e
  | .ok a1 =>
    match knightPair b pos 2 (-1) a1 with
    | .error e => .error e
    | .ok a2 =>
      match knightPair b pos (-2) 1 a2 with
      | .error e => .error e
      | .ok a3 => knightPair b pos (-2) (-1) a3

/-- One entry of the pawn capture loop (src/main.py lines 174-184): the
column is range-guarded but the row is not; cap_piece is read from
positions[row - i][col], i.e. from the pawn's own row. -/
def pawnCapTry (p : Piece) (b : Board) (pos : Position) (row col i : Int)
    (acc : List Move) : PyResult (List Move) :=
  if 0 ≤ col ∧ col ≤ 7 then
    match boardGet b (row - i) col with
    | .error e => .error e
    | .ok capPos =>
      match capPos.piece with
      | some cp =>
        if cp.color ≠ p.color then
          match boardGet b row col with
          | .error e => .error e
          | .ok tgt => .ok (acc ++ [mkMoveSimple pos tgt])
        else .ok acc
      | none => .ok acc
  else .ok acc

/-- Pawn.get_all_possible_moves (src/main.py lines 162-197).  The final
double-step block tests `board.positions[row+i][column] is None` on the
matrix entry itself (not its piece); after Board.__init__ every entry is
a Position object, so the condition is always false and the block (whose
body would also read the then-unbound local last_move) never runs; only
the indexing of its first operand, already performed by the forward-step
test above, is observable. -/
def pawnGen (p : Piece) (b : Board) (pos : Position) : PyResult (List Move) :=
  let i : Int := if p.color = .white then 1 else -1
  match boardGet b ((pos.row.val : Int) + i) (pos.column.val : Int) with
  | .error e => .error e
  | .ok fwd =>
    let acc0 : List Move := if fwd.piece = none then [mkMoveSimple pos fwd] else []
    match pawnCapTry p b pos ((pos.row.val : Int) + i) ((pos.column.val : Int) + 1)
        i acc0 with
    | .error e => .error e
    | .ok acc1 =>
      match pawnCapTry p b pos ((pos.row.val : Int) + i)
          ((pos.column.val : Int) - 1) i acc1 with
      | .error e => .error e
      | .ok acc2 =>
        match is_en_passant b with
        | .error e => .error e
        | .ok ep =>
          match (if ep then
              match b.lastMove with
              | none => PyResult.error .attrError
              | some lm =>
                match boardGet b ((pos.row.val : Int) + i) (lm.startC.val : Int) with
                | .error e => PyResult.error e
                | .ok tgt => PyResult.ok (acc2 ++ [mkMoveSimple pos tgt])
            else PyResult.ok acc2) with
          | .error e => .error e
          | .ok acc3 => .ok acc3

/-- The eight one-step direction probes of King.get_all_possible_moves
(src/main.py lines 402-411), tracking the last-assigned loop variable
`move` for the castle block below. -/
def kingDirProbe (b : Board) (pos : Position) (d : Int × Int)
    (st : List Move × Option Move) : PyResult (List Move × Option Move) :=
  let row := (pos.row.val : Int) + d.1
  let col := (pos.column.val : Int) + d.2
  if 0 ≤ row ∧ row ≤ 7 ∧ 0 ≤ col ∧ col ≤ 7 then
    match boardGet b row col with
    | .error e => .error e
    | .ok tgt =>
      let mv := mkMoveSimple pos tgt
      match is_possibly_valid b mv with
      | .error e => .error e
      | .ok v => .ok ((if v then st.1 ++ [mv] else st.1), some mv)
  else .ok st

/-- Folding kingDirProbe over a direction list. -/
def kingDirLoop (b : Board) (pos : Position) :
    List (Int × Int) → List Move × Option Move → PyResult (List Move × Option Move)
  | [], st => .ok st
  | d :: rest, st =>
    match kingDirProbe b pos d st with
    | .error e => .error e
    | .ok st2 => kingDirLoop b pos rest st2

/-- One initial-rook-square iteration of King's castle block (src/main.py
lines 415-431): skip unless the square holds an unmoved rook whose
can_castle succeeds; then append the castle move unconditionally and
additionally re-test the stale loop variable `move` from the direction
loop (NameError when it was never assigned), appending it again when
is_possibly_valid accepts it. -/
def kingCastleTry (fuel : Nat) (b : Board) (pos : Position) (x y : Fin 8)
    (st : List Move × Option Move) : PyResult (List Move) :=
  let rookPos := cellAt b x y
  match rookPos.piece with
  | none => .ok st.1
  | some rp =>
    if rp.pieceType ≠ .rook then .ok st.1
    else if rp.hasMoved then .ok st.1
    else
      match canCastleDispatch fuel rp b rookPos.row rookPos.column with
      | .error e => .error e
      | .ok cc =>
        if !cc then .ok st.1
        else
          let i : Int := if (pos.column.val : Int) < (rookPos.column.val : Int)
            then 1 else -1
          match boardGet b (pos.row.val : Int) ((pos.column.val : Int) + 2 * i) with
          | .error e => .error e
          | .ok epos =>
            match boardGet b (pos.row.val : Int) ((pos.column.val : Int) + i) with
            | .error e => .error e
            | .ok e1pos =>
              let acc1 := st.1 ++ [mkMoveCastle pos epos rookPos e1pos]
              match st.2 with
              | none => .error .nameError
              | some lmv =>
                match is_possibly_valid b lmv with
                | .error e => .error e
                | .ok v => .ok (if v then acc1 ++ [lmv] else acc1)

/-- King.get_all_possible_moves (src/main.py lines 400-432).  The castle
block is guarded by `if self.can_castle:`, a reference to the bound
method rather than a call; a method object is always truthy, so the
block runs unconditionally. -/
def kingGen (fuel : Nat) (p : Piece) (b : Board) (pos : Position) :
    PyResult (List Move) :=
  match kingDirLoop b pos
      [(1, 0), (1, 1), (1, -1), (0, 1), (0, -1), (-1, 0), (-1, -1), (-1, 1)]
      ([], none) with
  | .error e => .error e
  | .ok st =>
    let rookInits : List (Fin 8 × Fin 8) :=
      if p.color = .white then [(0, 0), (0, 7)] else [(7, 0), (7, 7)]
    match rookInits with
    | [rc1, rc2] =>
      match kingCastleTry fuel b pos rc1.1 rc1.2 st with
      | .error e => .error e
      | .ok acc1 =>
        match kingCastleTry fuel b pos rc2.1 rc2.2 (acc1, st.2) with
        | .error e => .error e
        | .ok acc2 => .ok acc2
    | _ => .ok st.1

/-- Dynamic dispatch of piece.get_all_possible_moves(board, position). -/
def getAllPossibleMoves (fuel : Nat) (p : Piece) (b : Board) (pos : Position) :
    PyResult GenResult :=
  match p.pieceType with
  | .pawn =>
    match pawnGen p b pos with
    | .error e => .error e
    | .ok ms => .ok (.list ms)
  | .knight =>
    match knightGen b pos with
    | .error e => .error e
    | .ok ms => .ok (.list ms)
  | .bishop => bishopGen fuel b pos
  | .queen => queenGen fuel b pos
  | .rook =>
    match rookGen fuel p b pos with
    | .error e => .error e
    | .ok ms => .ok (.list ms)
  | .king =>
    match kingGen fuel p b pos with
    | .error e => .error e
    | .ok ms => .ok (.list ms)

/-- One element of the comprehension
`coords = [(pos.row, pos.col) for pos in positions]` opening
Board.are_positions_under_attack (src/main.py line 565).  Position
objects expose `column`, not `col`, so the attribute read raises
AttributeError for every element. -/
def posRowCol (pos : Position) : PyResult (Int × Int) := .error .attrError

/-- The full comprehension: evaluated left to right, failing on the first
element; the empty list succeeds with an empty coords list. -/
def rowColList : List Position → PyResult (List (Int × Int))
  | [] => .ok []
  | p :: rest =>
    match posRowCol p with
    | .error e => .error e
    | .ok rc =>
      match rowColList rest with
      | .error e => .error e
      | .ok rcs => .ok (rc :: rcs)

/-- The body of the attack scan for one board cell (src/main.py lines
568-580).  Note the filter `cntpos.piece.color != color` keeps the
pieces NOT of the attacking colour; for non-pawns the generated moves
are iterated (a Bishop/Queen result is a single Move object, so the
iteration raises TypeError), for pawns the two diagonal squares are
tested directly. -/
def attackScanCell (fuel : Nat) (b : Board) (coords : List (Int × Int))
    (color : Color) (i j : Fin 8) : PyResult Bool :=
  let cntpos := cellAt b i j
  match cntpos.piece with
  | none => .ok false
  | some q =>
    if q.color ≠ color then
      if q.pieceType ≠ .pawn then
        match getAllPossibleMoves fuel q b cntpos with
        | .error e => .error e
        | .ok (.single _) => .error .typeError
        | .ok (.list ms) =>
          .ok (ms.any fun mv =>
            coords.contains ((mv.endR.val : Int), (mv.endC.val : Int)))
      else
        if color = .white then
          .ok (coords.contains ((cntpos.row.val : Int) + 1, (cntpos.column.val : Int) + 1)
            || coords.contains ((cntpos.row.val : Int) + 1, (cntpos.column.val : Int) - 1))
        else
          .ok (coords.contains ((cntpos.row.val : Int) - 1, (cntpos.column.val : Int) + 1)
            || coords.contains ((cntpos.row.val : Int) - 1, (cntpos.column.val : Int) - 1))
    else .ok false

/-- The nested `for i in range(8): for j in range(8)` scan with its early
`return True`. -/
def attackScanGo (fuel : Nat) (b : Board) (coords : List (Int × Int))
    (color : Color) : List (Fin 8 × Fin 8) → PyResult Bool
  | [] => .ok false
  | ij :: rest =>
    match attackScanCell fuel b coords color ij.1 ij.2 with
    | .error e => .error e
    | .ok true => .ok true
    | .ok false => attackScanGo fuel b coords color rest

/-- The 64 cells in row-major scan order. -/
def allCells : List (Fin 8 × Fin 8) :=
  (List.finRange 8).flatMap fun i => (List.finRange 8).map fun j => (i, j)

/-- Board.are_positions_under_attack (src/main.py lines 563-581). -/
def are_positions_under_attack (fuel : Nat) (b : Board)
    (positions : List Position) (color : Color) : PyResult Bool :=
  match rowColList positions with
  | .error e => .error e
  | .ok coords => attackScanGo fuel b coords color allCells

/-- Board.is_king_in_check (src/main.py lines 583-586). -/
def is_king_in_check (fuel : Nat) (b : Board) (color : Color) : PyResult Bool :=
  let kp := b.kingPositions color
  are_positions_under_attack fuel b [cellAt b kp.1 kp.2] (revert_color color)

/-- Move.can_result_in_check_of_own_king (src/main.py lines 672-674):

    temp_board = board.clone()
    return temp_board.is_king_in_check(color=self.start.piece.color)

Board.clone is a deepcopy, i.e. a value copy, which for the embedding's
immutable board values is the board itself.  Observe that the move is
never applied to the clone before the check query. -/
def can_result_in_check_of_own_king (fuel : Nat) (b : Board) (m : Move) :
    PyResult Bool :=
  let tempBoard := b
  match (cellAt b m.startR m.startC).piece with
  | none => .error .attrError
  | some p => is_king_in_check fuel tempBoard p.color

/-- Python range(a, b) ascending: a, a+1, ..., b-1. -/
def pyRangeUp (a b : Int) : List Int :=
  (List.range (b - a).toNat).map fun k => a + k

/-- Python range(a, b, -1) descending: a, a-1, ..., b+1. -/
def pyRangeDown (a b : Int) : List Int :=
  (List.range (a - b).toNat).map fun k => a - k

/-- The obstruction loop of Pawn._black_move_valid / _white_move_valid:
return False on the first occupied square of the given rows in the fixed
column, True when all were empty. -/
def scanEmptyCols (b : Board) : List Int → Int → PyResult Bool
  | [], _ => .ok true
  | r :: rest, col =>
    match boardGet b r col with
    | .error e => .error e
    | .ok pos => if pos.piece.isSome then .ok false else scanEmptyCols b rest col

/-- Pawn._can_capture (src/main.py lines 78-88).  The direction test
`move.end.row - move.start.row == 1` hard-codes White's forward
direction for both colours.  On an empty destination the code reads
en_passant_pos.piece.piece_type (AttributeError when the square beside
is empty) and, when that piece is a pawn, calls self._is_en_passant()
without its mandatory board argument, raising TypeError. -/
def can_capture (b : Board) (m : Move) : PyResult Bool :=
  if ((m.endR.val : Int) - (m.startR.val : Int)) = 1 ∧
      (((m.endC.val : Int) - (m.startC.val : Int)).natAbs = 1) then
    match (cellAt b m.endR m.endC).piece with
    | some _ => .ok true
    | none =>
      let epPos := cellAt b m.startR m.endC
      match epPos.piece with
      | none => .error .attrError
      | some q =>
        if q.pieceType = .pawn then .error .typeError
        else .ok false
  else .ok false

/-- Pawn._black_move_valid (src/main.py lines 90-101).  The inner range
runs from start.row-1 down to end.row inclusive, so the destination
square itself is part of the must-be-empty scan. -/
def black_move_valid (p : Piece) (b : Board) (m : Move) : PyResult Bool :=
  if m.startC = m.endC then
    let delta := (m.startR.val : Int) - (m.endR.val : Int)
    if delta = 1 ∨ (delta = 2 ∧ p.hasMoved = false) then
      scanEmptyCols b
        (pyRangeDown ((m.startR.val : Int) - 1) ((m.endR.val : Int) - 1))
        (m.startC.val : Int)
    else .ok false
  else can_capture b m

/-- Pawn._white_move_valid (src/main.py lines 103-114), mirror image of
the black case. -/
def white_move_valid (p : Piece) (b : Board) (m : Move) : PyResult Bool :=
  if m.startC = m.endC then
    let delta := (m.endR.val : Int) - (m.startR.val : Int)
    if delta = 1 ∨ (delta = 2 ∧ p.hasMoved = false) then
      scanEmptyCols b
        (pyRangeUp ((m.startR.val : Int) + 1) ((m.endR.val : Int) + 1))
        (m.startC.val : Int)
    else .ok false
  else can_capture b m

/-- The common tail of every is_valid_move: reject when
move.can_result_in_check_of_own_king(board) holds, accept otherwise. -/
def checkTail (fuel : Nat) (b : Board) (m : Move) : PyResult Bool :=
  match can_result_in_check_of_own_king fuel b m with
  | .error e => .error e
  | .ok chk => if chk then .ok false else .ok true

/-- Pawn.is_valid_move (src/main.py lines 116-125). -/
def pawn_is_valid_move (fuel : Nat) (p : Piece) (b : Board) (m : Move) :
    PyResult Bool :=
  match p.color with
  | .black =>
    match black_move_valid p b m with
    | .error e => .error e
    | .ok v => if v then checkTail fuel b m else .ok false
  | .white =>
    match white_move_valid p b m with
    | .error e => .error e
    | .ok v => if v then checkTail fuel b m else .ok false

/-- Pawn.can_promote (src/main.py lines 127-136). -/
def can_promote (p : Piece) (m : Move) : Bool :=
  (p.color = .white ∧ m.endR = (7 : Fin 8)) ∨ (p.color = .black ∧ m.endR = (0 : Fin 8))

/-- Knight.is_valid_move (src/main.py lines 203-208). -/
def knight_is_valid_move (fuel : Nat) (b : Board) (m : Move) : PyResult Bool :=
  if (((m.startR.val : Int) - (m.endR.val : Int)).natAbs = 2 ∧
      ((m.startC.val : Int) - (m.endC.val : Int)).natAbs = 1) ∨
     (((m.startR.val : Int) - (m.endR.val : Int)).natAbs = 1 ∧
      ((m.startC.val : Int) - (m.endC.val : Int)).natAbs = 2) then
    checkTail fuel b m
  else .ok false

/-- The while loop of Board.check_if_move_valid (src/main.py lines
623-627): step by (i, j) from just past the start until the running row
equals the end row or the running column equals the end column, failing
with False on the first occupied square.  The running coordinates are
plain Python ints indexing the row lists, so they may wrap or raise
IndexError; when neither coordinate ever meets its target the loop runs
unboundedly (fuel). -/
def cimvLoop (b : Board) (m : Move) (i j : Int) :
    Nat → Int → Int → PyResult Bool
  | 0, _, _ => .error .fuelOut
  | Nat.succ fuel, row, col =>
    if row ≠ (m.endR.val : Int) ∧ col ≠ (m.endC.val : Int) then
      match boardGet b row col with
      | .error e => .error e
      | .ok pos =>
        if pos.piece.isSome then .ok false
        else cimvLoop b m i j fuel (row + i) (col + j)
    else .ok true

/-- Board.check_if_move_valid (src/main.py lines 615-630).  The passed
i, j are only range-checked and then overwritten by the comparison-based
steps on line 618. -/
def check_if_move_valid (fuel : Nat) (b : Board) (m : Move) (i j : Int) :
    PyResult Bool :=
  if i < -1 ∨ i > 1 ∨ j < -1 ∨ j > 1 then
    .error (.valueError ("Invalid Value of i and j."))
  else
    let i2 : Int := if (m.endR.val : Int) > (m.startR.val : Int) then 1 else -1
    let j2 : Int := if (m.endC.val : Int) > (m.startC.val : Int) then 1 else -1
    match cimvLoop b m i2 j2 fuel ((m.startR.val : Int) + i2)
        ((m.startC.val : Int) + j2) with
    | .error e => .error e
    | .ok false => .ok false
    | .ok true => checkTail fuel b m

/-- Bishop.is_valid_move (src/main.py lines 239-244); the chained
comparison abs(dr) == abs(dc) != 0 means abs(dr) = abs(dc) and
abs(dc) is nonzero. -/
def bishop_is_valid_move (fuel : Nat) (b : Board) (m : Move) : PyResult Bool :=
  let rdel := (m.endR.val : Int) - (m.startR.val : Int)
  let cdel := (m.endC.val : Int) - (m.startC.val : Int)
  if rdel.natAbs = cdel.natAbs ∧ cdel.natAbs ≠ 0 then
    check_if_move_valid fuel b m
      (if (m.endR.val : Int) > (m.startR.val : Int) then 1 else -1)
      (if (m.endC.val : Int) > (m.startC.val : Int) then 1 else -1)
  else .ok false

/-- The sequential sign assignment of Queen/Rook.is_valid_move
(`if d == 0: s = 0; if d < 0: s = -1; if d > 0: s = 1`). -/
def signChain (d : Int) : Int :=
  if d = 0 then 0 else if d < 0 then -1 else 1

/-- Queen.is_valid_move (src/main.py lines 259-281).  The branch order of
the source makes straight moves (exactly one zero delta) fall off the
chain to the final return False; only diagonal and null moves reach
check_if_move_valid. -/
def queen_is_valid_move (fuel : Nat) (b : Board) (m : Move) : PyResult Bool :=
  let rdel := (m.endR.val : Int) - (m.startR.val : Int)
  let cdel := (m.endC.val : Int) - (m.startC.val : Int)
  if rdel.natAbs = cdel.natAbs ∧ cdel.natAbs ≠ 0 then
    check_if_move_valid fuel b m
      (if (m.endR.val : Int) > (m.startR.val : Int) then 1 else -1)
      (if (m.endC.val : Int) > (m.startC.val : Int) then 1 else -1)
  else if rdel.natAbs ≠ 0 ∧ cdel.natAbs ≠ 0 then .ok false
  else if rdel.natAbs = 0 ∧ cdel.natAbs = 0 then
    check_if_move_valid fuel b m (signChain rdel) (signChain cdel)
  else .ok false

/-- The shared castle branch of Rook.is_valid_move (src/main.py lines
320-323) and King.is_valid_move (lines 395-398):

    if move.start.piece.can_castle(board, move.start) and \
            move.start1.piece.can_castle(board, move.start1):
        return not move.can_result_in_check_of_own_king(board)
    return False
-/
def castleIsValid (fuel : Nat) (b : Board) (m : Move) : PyResult Bool :=
  match (cellAt b m.startR m.startC).piece with
  | none => .error .attrError
  | some sp =>
    match canCastleDispatch fuel sp b m.startR m.startC with
    | .error e => .error e
    | .ok a =>
      if a then
        match m.start1 with
        | none => .error .attrError
        | some s1 =>
          match (cellAt b s1.1 s1.2).piece with
          | none => .error .attrError
          | some s1p =>
            match canCastleDispatch fuel s1p b s1.1 s1.2 with
            | .error e => .error e
            | .ok a1 =>
              if a1 then
                match can_result_in_check_of_own_king fuel b m with
                | .error e => .error e
                | .ok chk => .ok (!chk)
              else .ok false
      else .ok false

/-- Rook.is_valid_move (src/main.py lines 302-323).  The non-castle
geometry guard `abs(dr) == 0 and abs(dc) == 0` admits only null moves
(an evident slip, preserved as written); everything else returns
False. -/
def rook_is_valid_move (fuel : Nat) (b : Board) (m : Move) : PyResult Bool :=
  if m.isCastle = false then
    let rdel := (m.endR.val : Int) - (m.startR.val : Int)
    let cdel := (m.endC.val : Int) - (m.startC.val : Int)
    if rdel.natAbs = 0 ∧ cdel.natAbs = 0 then
      check_if_move_valid fuel b m (signChain rdel) (signChain cdel)
    else .ok false
  else castleIsValid fuel b m

/-- King.is_valid_move (src/main.py lines 390-398).  The non-castle
branch forwards move.end.row and move.end.column as the i, j arguments
of check_if_move_valid, whose range guard therefore raises ValueError
whenever the destination lies outside rows/columns 0..1. -/
def king_is_valid_move (fuel : Nat) (b : Board) (m : Move) : PyResult Bool :=
  if m.isCastle = false then
    if ((m.endR.val : Int) - (m.startR.val : Int)).natAbs ≤ 1 ∧
        ((m.endC.val : Int) - (m.startC.val : Int)).natAbs ≤ 1 then
      check_if_move_valid fuel b m (m.endR.val : Int) (m.endC.val : Int)
    else .ok false
  else castleIsValid fuel b m

/-- Dynamic dispatch of piece.is_valid_move(board, move) over the six
concrete piece classes. -/
def is_valid_move (fuel : Nat) (p : Piece) (b : Board) (m : Move) :
    PyResult Bool :=
  match p.pieceType with
  | .pawn => pawn_is_valid_move fuel p b m
  | .knight => knight_is_valid_move fuel b m
  | .bishop => bishop_is_valid_move fuel b m
  | .queen => queen_is_valid_move fuel b m
  | .rook => rook_is_valid_move fuel b m
  | .king => king_is_valid_move fuel b m

/-- The rejection guard on src/main.py line 145:
`can_promote and (promote is None or promote == PieceTypes.pawn)` — the
condition under which Pawn.move raises "Invalid Input for promote.".
Note that PieceTypes.king is NOT rejected by it. -/
def pawnPromoteInvalidInput (canP : Bool) (promote : Option PieceTypes) : Bool :=
  canP && (promote.isNone || promote == some PieceTypes.pawn)

/-- `self.has_moved = True` executed by a piece's move method after the
displacement: the flag is set on the piece object, which the board now
holds (at most) in the cell the displacement wrote; rendered as setting
the flag on that cell's piece when present.  (Only reachable after a
successful is_valid_move, which — as proved below — never happens.) -/
def setHasMovedAtCell (b : Board) (r c : Fin 8) : Board :=
  match (cellAt b r c).piece with
  | some p => setCellPiece b r c (some { p with hasMoved := true })
  | none => b

/-- The tail of Pawn.move (src/main.py lines 159-160): set has_moved and
run move.clone_positions(), which never returns (Position.clone recurses
forever). -/
def pawnMoveFinish (fuel : Nat) (b : Board) (m : Move) : Option Err × Board :=
  let b1 := setHasMovedAtCell b m.endR m.endC
  match moveClonePositions fuel b1 m with
  | .error e => (some e, b1)
  | .ok _ => (none, b1)

/-- The promotion store `update(board, promote)` on src/main.py line 158
puts the raw PieceTypes enum member into the cell; Position.update then
reads promote.piece_type, which an enum member does not have, raising
AttributeError.  Our typed cell slot renders the stored enum as a
flagless Piece of that kind in the mover's colour (the branch is doubly
unreachable: validation never succeeds, and the preceding
update(board, None) always raises first). -/
def position_update_enum (b : Board) (r c : Fin 8) (t : PieceTypes)
    (col : Color) : Option Err × Board :=
  (some .attrError, setCellPiece b r c (some (freshPiece t col)))

/-- The displacement part of Pawn.move (src/main.py lines 150-160),
entered only after validation and the promotion guards.  Line 150 clears
the start cell — update(board, None) raises AttributeError after the
clear, so everything below is dead code, embedded for fidelity.  Reads
of move.start.piece go through the already-mutated board (the Move
aliases the matrix cells). -/
def pawnMoveApply (fuel : Nat) (p : Piece) (b : Board) (m : Move)
    (promote : Option PieceTypes) (canP : Bool) : Option Err × Board :=
  match position_update b m.startR m.startC none false with
  | (some e, b1) => (some e, b1)
  | (none, b1) =>
    if canP = false then
      match position_update b1 m.endR m.endC (cellAt b1 m.startR m.startC).piece
          false with
      | (some e, b2) => (some e, b2)
      | (none, b2) =>
        match is_en_passant b2 with
        | .error e => (some e, b2)
        | .ok true =>
          match position_update b2 m.startR m.endC none true with
          | (some e, b3) => (some e, b3)
          | (none, b3) => pawnMoveFinish fuel b3 m
        | .ok false => pawnMoveFinish fuel b2 m
    else
      match promote with
      | some t =>
        match position_update_enum b1 m.endR m.endC t p.color with
        | (some e, b2) => (some e, b2)
        | (none, b2) => pawnMoveFinish fuel b2 m
      | none => (some .attrError, b1)

/-- Pawn.move (src/main.py lines 138-160): validate, check the promotion
guards, then displace. -/
def pawn_move (fuel : Nat) (p : Piece) (b : Board) (m : Move)
    (promote : Option PieceTypes) : Option Err × Board :=
  match pawn_is_valid_move fuel p b m with
  | .error e => (some e, b)
  | .ok false => (some (.valueError ("Invalid Move")), b)
  | .ok true =>
    let canP := can_promote p m
    if pawnPromoteInvalidInput canP promote then
      (some (.valueError ("Invalid Input for promote.")), b)
    else if canP = false ∧ promote.isSome then
      (some (.valueError ("Promote must be None.")), b)
    else pawnMoveApply fuel p b m promote canP

/-- Piece.move (src/main.py lines 43-48), the shared non-castle move of
Knight, Bishop and Queen (and the delegate of Rook/King for simple
moves): validate, then

    board.positions[move.start.row][move.end.column].update(board, None)
    board.positions[move.end.row][move.end.column].update(board, move.start.piece)
    move.clone_positions()

Line 46 clears [start.row][end.column] (note the mixed indices) and that
update(board, None) raises AttributeError after the clear; the rest is
dead code, embedded for fidelity with move.start.piece read through the
mutated board. -/
def piece_move_generic (fuel : Nat) (p : Piece) (b : Board) (m : Move) :
    Option Err × Board :=
  match is_valid_move fuel p b m with
  | .error e => (some e, b)
  | .ok false => (some (.valueError ("Invalid Move.")), b)
  | .ok true =>
    match position_update b m.startR m.endC none false with
    | (some e, b1) => (some e, b1)
    | (none, b1) =>
      match position_update b1 m.endR m.endC (cellAt b1 m.startR m.startC).piece
          false with
      | (some e, b2) => (some e, b2)
      | (none, b2) =>
        match moveClonePositions fuel b2 m with
        | .error e => (some e, b2)
        | .ok _ => (none, b2)

/-- The castle displacement shared by Rook.move (src/main.py lines
368-377) and King.move (lines 438-447): four Position.update calls (the
first of which raises AttributeError after clearing
[start.row][end.column]), clone_positions, then the two has_moved
assignments on the landed pieces.  start1/end1 references on a malformed
non-castle move raise AttributeError. -/
def castleApply (fuel : Nat) (b : Board) (m : Move) : Option Err × Board :=
  match position_update b m.startR m.endC none false with
  | (some e, b1) => (some e, b1)
  | (none, b1) =>
    match position_update b1 m.endR m.endC (cellAt b1 m.startR m.startC).piece
        false with
    | (some e, b2) => (some e, b2)
    | (none, b2) =>
      match m.start1, m.end1 with
      | some s1, some e1 =>
        match position_update b2 s1.1 e1.2 none false with
        | (some e, b3) => (some e, b3)
        | (none, b3) =>
          match position_update b3 e1.1 e1.2 (cellAt b3 s1.1 s1.2).piece false with
          | (some e, b4) => (some e, b4)
          | (none, b4) =>
            match moveClonePositions fuel b4 m with
            | .error e => (some e, b4)
            | .ok _ =>
              (none, setHasMovedAtCell (setHasMovedAtCell b4 m.endR m.endC)
                e1.1 e1.2)
      | _, _ => (some .attrError, b2)

/-- Rook.move (src/main.py lines 364-377). -/
def rook_move (fuel : Nat) (p : Piece) (b : Board) (m : Move) :
    Option Err × Board :=
  if m.isCastle = false then
    match piece_move_generic fuel p b m with
    | (some e, b1) => (some e, b1)
    | (none, b1) => (none, setHasMovedAtCell b1 m.endR m.endC)
  else
    match rook_is_valid_move fuel b m with
    | .error e => (some e, b)
    | .ok false => (some (.valueError ("Invalid Move.")), b)
    | .ok true => castleApply fuel b m

/-- King.move (src/main.py lines 434-447). -/
def king_move (fuel : Nat) (p : Piece) (b : Board) (m : Move) :
    Option Err × Board :=
  if m.isCastle = false then
    match piece_move_generic fuel p b m with
    | (some e, b1) => (some e, b1)
    | (none, b1) => (none, setHasMovedAtCell b1 m.endR m.endC)
  else
    match king_is_valid_move fuel b m with
    | .error e => (some e, b)
    | .ok false => (some (.valueError ("Invalid Move.")), b)
    | .ok true => castleApply fuel b m

/-- Dynamic dispatch of move.start.piece.move(board, move) as performed
by Chess.move; Pawn.move is called without a promote argument, so the
default None applies. -/
def piece_move (fuel : Nat) (p : Piece) (b : Board) (m : Move) :
    Option Err × Board :=
  match p.pieceType with
  | .pawn => pawn_move fuel p b m none
  | .rook => rook_move fuel p b m
  | .king => king_move fuel p b m
  | _ => piece_move_generic fuel p b m

/-- Chess (src/main.py lines 685-691): the game controller state — the
two players, whose turn it is, the board, and the MoveObserver's list of
committed moves. -/
structure Chess where
  white : Player
  black : Player
  turn : Color
  board : Board
  observerMoves : List Move

/-- Chess.__init__(player1_name, player2_name). -/
def mkChess (n1 n2 : String) : Chess :=
  let w : Player := ⟨n1, .white⟩
  let bl : Player := ⟨n2, .black⟩
  { white := w, black := bl, turn := .white, board := mkBoard w bl,
    observerMoves := [] }

/-- Chess.move (src/main.py lines 712-719).  The first guard's third
disjunct `not move.is_possibly_valid` references the bound method
without calling it; a method object is truthy, so the disjunct is
constantly false and contributes nothing.  After a successful piece
move (never reached, as proved below) the turn flips, the new side's
check status is recomputed — where line 718 would set has_been_checked
on the Position object rather than its piece, a slot our cells do not
have — and the move is appended to the observer. -/
def chess_move (fuel : Nat) (s : Chess) (m : Move) : Option Err × Chess :=
  match (cellAt s.board m.startR m.startC).piece with
  | none => (some (.valueError ("Only player with current turn can move.")), s)
  | some p =>
    if p.color ≠ s.turn then
      (some (.valueError ("Only player with current turn can move.")), s)
    else
      match piece_move fuel p s.board m with
      | (some e, b1) => (some e, { s with board := b1 })
      | (none, b1) =>
        let s1 : Chess := { s with board := b1, turn := revert_color s.turn }
        match is_king_in_check fuel s1.board s1.turn with
        | .error e => (some e, s1)
        | .ok _ =>
          (none, { s1 with observerMoves := s1.observerMoves ++ [m] })

/-- The freshly initialised game used by the concrete theorems. -/
def initialChess : Chess := mkChess ("player1") ("player2")

/-- Its board: standard starting position. -/
def initialBoard : Board := initialChess.board

/-- Classifier used by the universal no-acceptance lemmas: true exactly
on a computation that returned the Python value True. -/
def isOkTrue : PyResult Bool → Bool
  | .ok true => true
  | _ => false

/-- White's opening pawn push (1,4) to (2,4): standard-chess legal, and
the canonical request every turn-alternation scenario starts with. -/
def whitePawnStep : Move := ⟨1, 4, 2, 4, false, none, none⟩

/-- A request by Black while it is White's turn: the pawn at (6,0) to
(5,0). -/
def blackPawnEarly : Move := ⟨6, 0, 5, 0, false, none, none⟩

/-- The castling scenario of spec section 8: White king at (0,4) and
rook at (0,7), both unmoved, the king never checked, squares (0,5) and
(0,6) empty and unattacked.  Obtained from the initial board by clearing
the bishop and knight between king and rook. -/
def castleBoard : Board :=
  setCellPiece (setCellPiece initialBoard 0 5 none) 0 6 none

/-- A White pawn one step from promotion: the promotion scenario of spec
section 8 with the pawn already advanced to (6,0) (its has_moved flag
set) and the rook that started at (7,0) gone; the pawn's original square
(1,0) is empty. -/
def promoBoard : Board :=
  setCellPiece (setCellPiece (setCellPiece initialBoard 6 0
    (some ⟨.pawn, .white, true, false⟩)) 7 0 none) 1 0 none

/-- The promoting request (6,0) to (7,0). -/
def promoMove : Move := ⟨6, 0, 7, 0, false, none, none⟩

/-- A Black pawn advanced to (4,3) with a White pawn on (3,4): the Black
diagonal-forward capture (4,3) to (3,4) is a textbook pawn capture. -/
def blackCapBoard : Board :=
  setCellPiece (setCellPiece initialBoard 4 3
    (some ⟨.pawn, .black, true, false⟩)) 3 4 (some ⟨.pawn, .white, true, false⟩)

/-- The Black capture request (4,3) to (3,4). -/
def blackCapMove : Move := ⟨4, 3, 3, 4, false, none, none⟩

/-- The en-passant scenario of spec section 8: Black just played the
pawn double step (6,3) to (4,3) and White's pawn stands on (4,2); the
capture (4,2) to (5,3) onto the empty square should be legal. -/
def epBoard : Board :=
  { setCellPiece (setCellPiece (setCellPiece initialBoard 4 2
      (some ⟨.pawn, .white, true, false⟩)) 4 3
      (some ⟨.pawn, .black, true, false⟩)) 6 3 none
    with lastMove := some ⟨6, 3, 4, 3, false, none, none⟩ }

/-- The en-passant capture request (4,2) to (5,3). -/
def epMove : Move := ⟨4, 2, 5, 3, false, none, none⟩

/-- The coords comprehension fails on its first element: Position has no
attribute col. -/
theorem rowColList_cons_err (p : Position) (rest : List Position) :
    rowColList (p :: rest) = .error .attrError := rfl

/-- is_king_in_check always raises AttributeError: the singleton
positions list it passes makes the coords comprehension read pos.col. -/
theorem is_king_in_check_err (fuel : Nat) (b : Board) (c : Color) :
    is_king_in_check fuel b c = .error .attrError := rfl

/-- can_result_in_check_of_own_king always raises AttributeError: with
an empty start cell the read self.start.piece.color fails, otherwise the
is_king_in_check call on the clone fails. -/
theorem can_result_err (fuel : Nat) (b : Board) (m : Move) :
    can_result_in_check_of_own_king fuel b m = .error .attrError := by
  unfold can_result_in_check_of_own_king
  cases (cellAt b m.startR m.startC).piece <;>
    simp [is_king_in_check_err]

/-- The shared accept-or-reject tail of the validators therefore always
raises. -/
theorem checkTail_err (fuel : Nat) (b : Board) (m : Move) :
    checkTail fuel b m = .error .attrError := by
  unfold checkTail
  rw [can_result_err]

/-- check_if_move_valid never returns True: every path that survives the
range guard and the obstruction loop ends in the always-raising check
tail. -/
theorem check_if_move_valid_not_true (fuel : Nat) (b : Board) (m : Move)
    (i j : Int) : isOkTrue (check_if_move_valid fuel b m i j) = false := by
  unfold check_if_move_valid
  dsimp only
  simp only [checkTail_err]
  repeat' split
  all_goals rfl

/-- Pawn.is_valid_move never returns True. -/
theorem pawn_is_valid_move_not_true (fuel : Nat) (p : Piece) (b : Board)
    (m : Move) : isOkTrue (pawn_is_valid_move fuel p b m) = false := by
  unfold pawn_is_valid_move
  simp only [checkTail_err]
  repeat' split
  all_goals rfl

/-- Knight.is_valid_move never returns True. -/
theorem knight_is_valid_move_not_true (fuel : Nat) (b : Board) (m : Move) :
    isOkTrue (knight_is_valid_move fuel b m) = false := by
  unfold knight_is_valid_move
  simp only [checkTail_err]
  repeat' split
  all_goals rfl

/-- Bishop.is_valid_move never returns True. -/
theorem bishop_is_valid_move_not_true (fuel : Nat) (b : Board) (m : Move) :
    isOkTrue (bishop_is_valid_move fuel b m) = false := by
  unfold bishop_is_valid_move
  dsimp only
  repeat' split
  all_goals first
    | rfl
    | exact check_if_move_valid_not_true fuel b m _ _

/-- Queen.is_valid_move never returns True. -/
theorem queen_is_valid_move_not_true (fuel : Nat) (b : Board) (m : Move) :
    isOkTrue (queen_is_valid_move fuel b m) = false := by
  unfold queen_is_valid_move
  dsimp only
  repeat' split
  all_goals first
    | rfl
    | exact check_if_move_valid_not_true fuel b m _ _

/-- The castle branch shared by Rook and King never returns True: its
accepting path ends in the always-raising
can_result_in_check_of_own_king. -/
theorem castleIsValid_not_true (fuel : Nat) (b : Board) (m : Move) :
    isOkTrue (castleIsValid fuel b m) = false := by
  unfold castleIsValid
  simp only [can_result_err]
  repeat' split
  all_goals rfl

/-- Rook.is_valid_move never returns True. -/
theorem rook_is_valid_move_not_true (fuel : Nat) (b : Board) (m : Move) :
    isOkTrue (rook_is_valid_move fuel b m) = false := by
  unfold rook_is_valid_move
  repeat' (first | split | dsimp only)
  all_goals first
    | rfl
    | exact check_if_move_valid_not_true fuel b m _ _
    | exact castleIsValid_not_true fuel b m

/-- King.is_valid_move never returns True. -/
theorem king_is_valid_move_not_true (fuel : Nat) (b : Board) (m : Move) :
    isOkTrue (king_is_valid_move fuel b m) = false := by
  unfold king_is_valid_move
  repeat' (first | split | dsimp only)
  all_goals first
    | rfl
    | exact check_if_move_valid_not_true fuel b m _ _
    | exact castleIsValid_not_true fuel b m

/-- No piece's is_valid_move ever returns True on any board and move:
every accepting control path runs the self-check simulation, which
always raises AttributeError. -/
theorem is_valid_move_not_true (fuel : Nat) (p : Piece) (b : Board)
    (m : Move) : isOkTrue (is_valid_move fuel p b m) = false := by
  unfold is_valid_move
  split
  all_goals first
    | exact pawn_is_valid_move_not_true fuel p b m
    | exact knight_is_valid_move_not_true fuel b m
    | exact bishop_is_valid_move_not_true fuel b m
    | exact queen_is_valid_move_not_true fuel b m
    | exact rook_is_valid_move_not_true fuel b m
    | exact king_is_valid_move_not_true fuel b m

/-- Pawn.move always raises, before any board mutation. -/
theorem pawn_move_rejects (fuel : Nat) (p : Piece) (b : Board) (m : Move)
    (promote : Option PieceTypes) :
    (pawn_move fuel p b m promote).1.isSome = true ∧
    (pawn_move fuel p b m promote).2 = b := by
  have hnt := pawn_is_valid_move_not_true fuel p b m
  unfold pawn_move
  cases hv : pawn_is_valid_move fuel p b m with
  | error e => exact ⟨rfl, rfl⟩
  | ok v =>
    cases v
    · exact ⟨rfl, rfl⟩
    · rw [hv] at hnt
      simp [isOkTrue] at hnt

/-- Piece.move (the shared simple-move method) always raises, before any
board mutation. -/
theorem piece_move_generic_rejects (fuel : Nat) (p : Piece) (b : Board)
    (m : Move) :
    (piece_move_generic fuel p b m).1.isSome = true ∧
    (piece_move_generic fuel p b m).2 = b := by
  have hnt := is_valid_move_not_true fuel p b m
  unfold piece_move_generic
  cases hv : is_valid_move fuel p b m with
  | error e => exact ⟨rfl, rfl⟩
  | ok v =>
    cases v
    · exact ⟨rfl, rfl⟩
    · rw [hv] at hnt
      simp [isOkTrue] at hnt

/-- Rook.move always raises, before any board mutation. -/
theorem rook_move_rejects (fuel : Nat) (p : Piece) (b : Board) (m : Move) :
    (rook_move fuel p b m).1.isSome = true ∧ (rook_move fuel p b m).2 = b := by
  unfold rook_move
  split
  · obtain ⟨h1, h2⟩ := piece_move_generic_rejects fuel p b m
    cases hpm : piece_move_generic fuel p b m with
    | mk o b1 =>
      rw [hpm] at h1 h2
      have h1b : o.isSome = true := h1
      have h2b : b1 = b := h2
      cases o with
      | none => simp at h1b
      | some e => exact ⟨rfl, h2b⟩
  · have hnt := rook_is_valid_move_not_true fuel b m
    cases hv : rook_is_valid_move fuel b m with
    | error e => exact ⟨rfl, rfl⟩
    | ok v =>
      cases v
      · exact ⟨rfl, rfl⟩
      · rw [hv] at hnt
        simp [isOkTrue] at hnt

/-- King.move always raises, before any board mutation. -/
theorem king_move_rejects (fuel : Nat) (p : Piece) (b : Board) (m : Move) :
    (king_move fuel p b m).1.isSome = true ∧ (king_move fuel p b m).2 = b := by
  unfold king_move
  split
  · obtain ⟨h1, h2⟩ := piece_move_generic_rejects fuel p b m
    cases hpm : piece_move_generic fuel p b m with
    | mk o b1 =>
      rw [hpm] at h1 h2
      have h1b : o.isSome = true := h1
      have h2b : b1 = b := h2
      cases o with
      | none => simp at h1b
      | some e => exact ⟨rfl, h2b⟩
  · have hnt := king_is_valid_move_not_true fuel b m
    cases hv : king_is_valid_move fuel b m with
    | error e => exact ⟨rfl, rfl⟩
    | ok v =>
      cases v
      · exact ⟨rfl, rfl⟩
      · rw [hv] at hnt
        simp [isOkTrue] at hnt

/-- Whatever the piece, its move method raises and leaves the board
untouched. -/
theorem piece_move_rejects (fuel : Nat) (p : Piece) (b : Board) (m : Move) :
    (piece_move fuel p b m).1.isSome = true ∧ (piece_move fuel p b m).2 = b := by
  unfold piece_move
  split
  all_goals first
    | exact pawn_move_rejects fuel p b m none
    | exact rook_move_rejects fuel p b m
    | exact king_move_rejects fuel p b m
    | exact piece_move_generic_rejects fuel p b m

/-- Chess.move always returns an error and leaves the whole game state
(board, turn, observer) exactly as it was. -/
theorem chess_move_rejects (fuel : Nat) (s : Chess) (m : Move) :
    (chess_move fuel s m).1.isSome = true ∧ (chess_move fuel s m).2 = s := by
  unfold chess_move
  cases hp : (cellAt s.board m.startR m.startC).piece with
  | none => exact ⟨rfl, rfl⟩
  | some p =>
    dsimp only
    by_cases hc : p.color ≠ s.turn
    · rw [if_pos hc]
      exact ⟨rfl, rfl⟩
    · rw [if_neg hc]
      obtain ⟨h1, h2⟩ := piece_move_rejects fuel p s.board m
      cases hpm : piece_move fuel p s.board m with
      | mk o b1 =>
        rw [hpm] at h1 h2
        have h1b : o.isSome = true := h1
        have h2b : b1 = s.board := h2
        cases o with
        | none => simp at h1b
        | some e =>
          subst h2b
          exact ⟨rfl, rfl⟩

/-- Position.clone never returns, whatever the recursion budget. -/
theorem positionClone_fuelOut :
    ∀ (fuel : Nat) (p : Position), positionClone fuel p = .error .fuelOut := by
  intro fuel
  induction fuel with
  | zero => intro p; rfl
  | succ n ih => intro p; exact ih p

/-- Hence Move.clone_positions never returns either: its first clone
call already diverges. -/
theorem moveClonePositions_fuelOut (fuel : Nat) (b : Board) (m : Move) :
    moveClonePositions fuel b m = .error .fuelOut := by
  unfold moveClonePositions
  rw [positionClone_fuelOut]

/-- The direction loop started at the empty square (2,0) of the initial
board never terminates: the loop body neither increments the running
coordinates nor reaches a break, so the state repeats verbatim. -/
theorem gapmigdLoop_stuck (startPos : Position) :
    ∀ (fuel : Nat) (acc : List Move),
      gapmigdLoop initialBoard startPos 2 0 fuel acc = .error .fuelOut := by
  intro fuel
  induction fuel with
  | zero => intro acc; rfl
  | succ n ih =>
    intro acc
    have hstep :
        gapmigdLoop initialBoard startPos 2 0 (n + 1) acc =
          gapmigdLoop initialBoard startPos 2 0 n
            (acc ++ [mkMoveSimple startPos (cellAt initialBoard 2 0)]) := rfl
    rw [hstep]
    exact ih _

/-- Rook.can_castle never returns True, on any board whatsoever: when
every flag and occupancy test passes, the three collected squares start
at the king's own cell, and if even those are all empty the final attack
query is called without its color argument and raises TypeError. -/
theorem rook_canCastle_not_true (fuel : Nat) (col : Color) (hm hbc : Bool)
    (b : Board) (r c : Fin 8) :
    isOkTrue (canCastleDispatch fuel ⟨.rook, col, hm, hbc⟩ b r c) = false := by
  cases fuel with
  | zero => rfl
  | succ n =>
    unfold canCastleDispatch
    dsimp only
    repeat' split
    all_goals rfl

/-- C1.  The claim says every move accepted by the legality engine
leaves the mover's king out of check, decided by cloning the board,
applying the move on the clone, and testing the clone.  In the code,
Move.can_result_in_check_of_own_king clones the board but never applies
the move to the clone, and the check query it then makes always raises
AttributeError, so the simulation cannot decide anything and the engine
accepts no move at all: even White's opening pawn push fails inside the
check test rather than being accepted. -/
theorem c1_self_check_simulation_broken :
    (∀ (fuel : Nat) (b : Board) (m : Move),
      can_result_in_check_of_own_king fuel b m = .error .attrError) ∧
    pawn_is_valid_move 6 (freshPiece .pawn .white) initialBoard whitePawnStep =
      .error .attrError := by
  refine ⟨fun fuel b m => can_result_err fuel b m, ?_⟩
  decide

/-- C2.  The claim says is_king_in_check(c) returns true iff the king's
square is attacked by the opposite colour.  In the code it returns no
boolean ever: the coords comprehension inside
are_positions_under_attack reads pos.col, an attribute Position does not
have, so is_king_in_check raises AttributeError on every board and
colour — in particular on the freshly initialised board. -/
theorem c2_is_king_in_check_always_raises :
    (∀ (fuel : Nat) (b : Board) (c : Color),
      is_king_in_check fuel b c = .error .attrError) ∧
    is_king_in_check 6 initialBoard .white = .error .attrError :=
  ⟨fun fuel b c => is_king_in_check_err fuel b c,
    is_king_in_check_err 6 initialBoard .white⟩

/-- C3.  The claim says sliding-move generation along any direction
(i, j) with both offsets in [-1, 1] returns a finite list because each
step moves toward the board edge.  In the code the while loop never
advances the probe coordinates (the increments sit before the loop), so
whenever the first probed square is on the board and empty — e.g. square
(2,0) above the White pawn at (1,0) — the generation appends the same
move forever: the result is fuel exhaustion for every fuel bound. -/
theorem c3_sliding_generation_diverges :
    (∀ (fuel : Nat),
      get_all_possible_moves_in_given_dir fuel initialBoard
        (cellAt initialBoard 1 0) 1 0 = .error .fuelOut) ∧
    (cellAt initialBoard 2 0).piece = none ∧
    (cellAt initialBoard 1 0).piece = some (freshPiece .pawn .white) := by
  refine ⟨?_, by decide, by decide⟩
  intro fuel
  unfold get_all_possible_moves_in_given_dir
  rw [if_neg (by norm_num)]
  exact gapmigdLoop_stuck (cellAt initialBoard 1 0) fuel []

/-- C4.  The claim says a rejected move request leaves board and
side-to-move byte-for-byte unchanged and that resubmitting the same
illegal move reproduces the same error on the same state.  This holds —
indeed in this draft every request is rejected: Chess.move always
returns an error, the returned game state is exactly the input state,
and a resubmission therefore evaluates to the very same result. -/
theorem c4_rejected_requests_preserve_state :
    ∀ (fuel : Nat) (s : Chess) (m : Move),
      (chess_move fuel s m).1.isSome = true ∧
      (chess_move fuel s m).2 = s ∧
      chess_move fuel (chess_move fuel s m).2 m = chess_move fuel s m := by
  intro fuel s m
  obtain ⟨h1, h2⟩ := chess_move_rejects fuel s m
  exact ⟨h1, h2, by rw [h2]⟩

/-- C5.  The claim says that from the initial state the side to move
alternates White/Black with each successful request, a wrong-side
request failing with a turn error.  In the code the game starts with
White to move and a wrong-side request does fail with the turn error
leaving the state unchanged, but no request ever succeeds: even White's
plainly legal opening pawn push (1,4)-(2,4) dies with AttributeError
inside the self-check simulation, so the turn can never flip at all. -/
theorem c5_turn_never_advances :
    initialChess.turn = Color.white ∧
    (chess_move 6 initialChess whitePawnStep).1 = some Err.attrError ∧
    (chess_move 6 initialChess whitePawnStep).2 = initialChess ∧
    (chess_move 6 initialChess blackPawnEarly).1 =
      some (Err.valueError ("Only player with current turn can move.")) ∧
    (chess_move 6 initialChess blackPawnEarly).2 = initialChess := by
  refine ⟨rfl, by decide, (chess_move_rejects 6 initialChess whitePawnStep).2,
    by decide, (chess_move_rejects 6 initialChess blackPawnEarly).2⟩

/-- C6.  The claim says a castle is legal iff king and rook are
unmoved, the king was never checked, the squares between are empty and
the king's path is unattacked.  In the code Rook.can_castle collects
the king's path starting AT the king's own square and demands all three
collected squares be empty, so in the spec's own section-8 scenario —
king (0,4) and rook (0,7) unmoved and unchecked, (0,5) and (0,6) empty —
it returns False; and universally, on every board, it never returns
True (were the occupancy test ever passed, the attack query is called
without its color argument and raises TypeError). -/
theorem c6_castling_never_legal :
    (∀ (fuel : Nat) (col : Color) (hm hbc : Bool) (b : Board) (r c : Fin 8),
      isOkTrue (canCastleDispatch fuel ⟨.rook, col, hm, hbc⟩ b r c) = false) ∧
    canCastleDispatch 6 (freshPiece .rook .white) castleBoard 0 7 = .ok false ∧
    (cellAt castleBoard 0 5).piece = none ∧
    (cellAt castleBoard 0 6).piece = none ∧
    (cellAt castleBoard 0 4).piece = some (freshPiece .king .white) ∧
    (cellAt castleBoard 0 7).piece = some (freshPiece .rook .white) := by
  refine ⟨fun fuel col hm hbc b r c => rook_canCastle_not_true fuel col hm hbc b r c,
    by decide, by decide, by decide, by decide, by decide⟩

/-- C7.  The claim says reaching the far rank makes a promotion kind
from {Knight, Bishop, Rook, Queen} mandatory, with omission or
Pawn/King rejected by the promotion error.  In the code the promotion
checks are dead: for the White pawn on (6,0) moving to (7,0) —
promotion omitted or set to King alike — Pawn.move raises AttributeError
inside is_valid_move before the promotion guard runs; and the guard
itself, evaluated in isolation, rejects only None and Pawn, while King
slips through. -/
theorem c7_promotion_checks_unreachable_and_king_accepted :
    (pawn_move 6 (⟨.pawn, .white, true, false⟩ : Piece) promoBoard promoMove
      none).1 = some Err.attrError ∧
    (pawn_move 6 (⟨.pawn, .white, true, false⟩ : Piece) promoBoard promoMove
      (some PieceTypes.king)).1 = some Err.attrError ∧
    can_promote (⟨.pawn, .white, true, false⟩ : Piece) promoMove = true ∧
    pawnPromoteInvalidInput true (some PieceTypes.king) = false ∧
    pawnPromoteInvalidInput true none = true ∧
    pawnPromoteInvalidInput true (some PieceTypes.pawn) = true := by
  refine ⟨by decide, by decide, by decide, by decide, by decide, by decide⟩

/-- C8.  The claim says a pawn's one-square diagonal-forward move is
geometrically valid exactly when the destination holds an enemy piece
or en-passant applies.  In the code _can_capture tests
end.row - start.row == 1, White's direction, for both colours: the
Black pawn on (4,3) capturing the White pawn on (3,4) is rejected
outright; and on the spec's en-passant scenario (White pawn (4,2)
taking to the empty (5,3) after Black's double step (6,3)-(4,3)) the
code raises TypeError, because it calls self._is_en_passant() without
its board argument. -/
theorem c8_pawn_capture_direction_and_en_passant_broken :
    pawn_is_valid_move 6 (⟨.pawn, .black, true, false⟩ : Piece) blackCapBoard
      blackCapMove = .ok false ∧
    can_capture blackCapBoard blackCapMove = .ok false ∧
    (cellAt blackCapBoard 3 4).piece =
      some (⟨.pawn, .white, true, false⟩ : Piece) ∧
    can_capture epBoard epMove = .error Err.typeError := by
  refine ⟨by decide, by decide, by decide, by decide⟩

/-- C9.  The claim says a committed Move record holds independent
snapshot copies of its positions and pieces.  In the code the snapshot
machinery cannot produce anything: Position.clone returns self.clone(),
an unconditional self-call that never terminates (RecursionError), so
Move.clone_positions — which every move method runs at commit time —
diverges for every recursion budget and no snapshot is ever taken. -/
theorem c9_snapshot_clone_never_terminates :
    (∀ (fuel : Nat) (p : Position), positionClone fuel p = .error .fuelOut) ∧
    (∀ (fuel : Nat) (b : Board) (m : Move),
      moveClonePositions fuel b m = .error .fuelOut) :=
  ⟨positionClone_fuelOut, moveClonePositions_fuelOut⟩

/-- C10.  The claim says the king-location index always equals the cell
holding the king and every king displacement updates it in the same
operation.  In the code the maintenance primitive itself breaks the
invariant: clearing a cell via Position.update(board, None) — the first
half of every displacement — assigns the empty piece and then raises
AttributeError on None.piece_type; performed on the White king's start
cell (0,4) of the initial board, it leaves the cell empty while the
index still points at (0,4), a cell that no longer holds the king, and
no king displacement can ever complete. -/
theorem c10_king_index_breaks_on_update :
    (cellAt initialBoard 0 4).piece = some (freshPiece .king .white) ∧
    initialBoard.kingPositions Color.white = ((0 : Fin 8), (4 : Fin 8)) ∧
    (position_update initialBoard 0 4 none false).1 = some Err.attrError ∧
    (position_update initialBoard 0 4 none false).2.kingPositions Color.white =
      ((0 : Fin 8), (4 : Fin 8)) ∧
    (cellAt (position_update initialBoard 0 4 none false).2 0 4).piece = none := by
  refine ⟨by decide, by decide, by decide, by decide, by decide⟩
